import Mathlib

/-!
Verification of the deployment helper in `deployment/s3.py`.

The Python module is boundary glue over a cloud object store: it creates a
bucket, uploads a file or a directory tree, and configures static-website
hosting.  We embed it shallowly: the filesystem (`os.path.isfile`,
`os.path.isdir`, `os.getcwd`, `os.walk`) and the storage service become
explicit parameters of every operation, and each operation returns the
Python result — either a boolean or an uncaught exception — together with
the list of remote API calls it issued, in order.  The only exception the
`except ClientError` handlers catch is the SDK's client error; any other
exception (such as the `IndexError` from `dirpath[0]` on an empty string)
escapes the function, which the `Except` result records.
-/

set_option linter.unusedVariables false

namespace S3Deploy

/-- A remote API call issued to the storage service.  Each constructor's
arguments are the observable parameters the Python code passes to the SDK:
`createBucket` carries the optional `CreateBucketConfiguration` location
constraint, `uploadFile` carries the local source path, the bucket, the
destination key and the optional `ContentType` extra argument. -/
inductive RemoteCall where
  | createBucket (bucket : String) (locationConstraint : Option String)
  | putBucketCors (bucket : String)
  | putBucketPolicy (bucket : String)
  | putBucketWebsite (bucket : String) (indexDoc errorDoc : String)
  | uploadFile (filepath bucket key : String) (contentType : Option String)
  deriving DecidableEq, BEq

/-- The exceptions relevant to this module: the SDK's `ClientError`, which
every operation catches, and Python's `IndexError`, which none does. -/
inductive Exn where
  | clientError
  | indexError
  deriving DecidableEq

instance {ε α : Type} [DecidableEq ε] [DecidableEq α] :
    DecidableEq (Except ε α) := fun a b =>
  match a, b with
  | .ok x, .ok y =>
    if h : x = y then isTrue (congrArg Except.ok h)
    else isFalse (fun hh => h (Except.ok.inj hh))
  | .error x, .error y =>
    if h : x = y then isTrue (congrArg Except.error h)
    else isFalse (fun hh => h (Except.error.inj hh))
  | .ok _, .error _ => isFalse (fun hh => Except.noConfusion hh)
  | .error _, .ok _ => isFalse (fun hh => Except.noConfusion hh)

/-- The local filesystem as the Python code observes it: `os.path.isfile`,
`os.path.isdir`, `os.getcwd()` and `os.walk` (each walk entry is a root
directory paired with the file names directly inside it, in walk order;
the directory-name component of Python's triple is unused by the code). -/
structure FS where
  isfile : String → Bool
  isdir : String → Bool
  getcwd : String
  walk : String → List (String × List String)

/-- The remote service: `fails c = true` means issuing call `c` raises the
SDK's `ClientError`. -/
structure S3 where
  fails : RemoteCall → Bool

/-- The ambient environment of one run: local filesystem plus remote
service behaviour. -/
structure Env where
  fs : FS
  s3 : S3

/-- Tests whether the pattern (first argument) begins the list (second
argument); `leadsWith p s` is Python's `s.startswith(p)` on characters. -/
def leadsWith : List Char → List Char → Bool
  | [], _ => true
  | _ :: _, [] => false
  | p :: ps, c :: cs => p = c && leadsWith ps cs

/-- Python `str.replace(pat, rep, 1)` on character lists: replace the first
occurrence of `pat` by `rep`, leave the rest untouched.  An empty pattern
matches at the start, as in Python. -/
def replaceFirstChars (s pat rep : List Char) : List Char :=
  match s with
  | [] => if pat = [] then rep else []
  | c :: rest =>
    if leadsWith pat (c :: rest) then rep ++ (c :: rest).drop pat.length
    else c :: replaceFirstChars rest pat rep

/-- Python `str.replace(pat, rep, 1)` on strings. -/
def str_replace_first (s pat rep : String) : String :=
  String.mk (replaceFirstChars s.data pat.data rep.data)

/-- True when the string starts with the path separator, Python's
`s[0] == "/"` for a non-empty `s`. -/
def startsWithSlash (s : String) : Bool :=
  match s.data with
  | [] => false
  | c :: _ => c = '/'

/-- True when the string ends with the path separator. -/
def endsWithSlash (s : String) : Bool :=
  match s.data.getLast? with
  | some c => c = '/'
  | none => false

/-- Python `os.path.join(a, b)` for POSIX paths and two arguments: an
absolute second component wins; otherwise the parts are concatenated,
inserting `/` unless the first part is empty or already ends in `/`.
No normalization happens, so `join "/home/user" "./site"` is
`"/home/user/./site"`. -/
def os_path_join (a b : String) : String :=
  if startsWithSlash b then b
  else if a = "" || endsWithSlash a then a ++ b
  else a ++ "/" ++ b

/-- The characters after the last `/` of a path, Python's basename. -/
def basenameChars (cs : List Char) : List Char :=
  (cs.reverse.takeWhile (fun c => c ≠ '/')).reverse

/-- The extension of a path, Python `posixpath.splitext` without the dot:
leading dots of the basename do not start an extension. -/
def extChars (cs : List Char) : List Char :=
  let base := basenameChars cs
  let trimmed := base.dropWhile (fun c => c = '.')
  if trimmed.any (fun c => c = '.') then
    (trimmed.reverse.takeWhile (fun c => c ≠ '.')).reverse
  else []

/-- Modelled from the spec: the Python standard library's
`mimetypes.guess_type`, which is not part of this repository.  It maps a
filename extension (case-insensitively) to a MIME type and returns `None`
for unrecognized extensions; only the common web extensions relevant to a
static-site deployment are tabulated here. -/
def guess_type (filepath : String) : Option String :=
  let ext := String.mk ((extChars filepath.data).map Char.toLower)
  if ext = "html" then some "text/html"
  else if ext = "htm" then some "text/html"
  else if ext = "css" then some "text/css"
  else if ext = "js" then some "text/javascript"
  else if ext = "json" then some "application/json"
  else if ext = "png" then some "image/png"
  else if ext = "jpg" then some "image/jpeg"
  else if ext = "jpeg" then some "image/jpeg"
  else if ext = "gif" then some "image/gif"
  else if ext = "txt" then some "text/plain"
  else if ext = "svg" then some "image/svg+xml"
  else none

/-- Issues a list of remote calls strictly in order inside one
`try/except ClientError` block: the first failing call raises, aborting
the rest; the result records whether all calls succeeded (the boolean the
handler turns the exception into) and the calls actually issued, the
failing one included. -/
def runCalls (env : Env) : List RemoteCall → Bool × List RemoteCall
  | [] => (true, [])
  | c :: rest =>
    if env.s3.fails c then (false, [c])
    else
      let r := runCalls env rest
      (r.1, c :: r.2)

/-- Embedding of `create_bucket(bucket_name, region=None)`: one
`create_bucket` SDK call, with a `CreateBucketConfiguration` location
constraint exactly when a region is supplied; `ClientError` is caught and
becomes `False`. -/
def create_bucket (env : Env) (bucket_name : String) (region : Option String) :
    Except Exn Bool × List RemoteCall :=
  let call :=
    match region with
    | none => RemoteCall.createBucket bucket_name none
    | some r => RemoteCall.createBucket bucket_name (some r)
  let res := runCalls env [call]
  (.ok res.1, res.2)

/-- Embedding of `upload_file(bucket_name, filepath, region=None, key=None)`:
guesses the content type from the file path, uploads under the given key
or, when the key is `None`, under the literal filepath; `ClientError` is
caught and becomes `False`. -/
def upload_file (env : Env) (bucket_name filepath : String)
    (region key : Option String) : Except Exn Bool × List RemoteCall :=
  let content_type := guess_type filepath
  let file_key :=
    match key with
    | none => filepath
    | some k => k
  let res := runCalls env [RemoteCall.uploadFile filepath bucket_name file_key content_type]
  (.ok res.1, res.2)

/-- The directory root `upload_dir` actually walks: the given path when it
is absolute, otherwise `os.path.join(os.getcwd(), dirpath)`. -/
def resolved_dirpath (env : Env) (dirpath : String) : String :=
  if startsWithSlash dirpath then dirpath
  else os_path_join env.fs.getcwd dirpath

/-- The upload calls `upload_dir` plans, in walk order: for each file, the
source path is `os.path.join(root, name)`, and the destination key is the
path with the first occurrence of the resolved root replaced by the key
prefix (the original `dirpath` when the key argument is `None`). -/
def upload_dir_calls (env : Env) (bucket_name dirpath : String)
    (key : Option String) : List RemoteCall :=
  let k := key.getD dirpath
  let d := resolved_dirpath env dirpath
  (env.fs.walk d).flatMap (fun rf =>
    rf.2.map (fun name =>
      let path := os_path_join rf.1 name
      RemoteCall.uploadFile path bucket_name (str_replace_first path d k)
        (guess_type path)))

/-- Embedding of `upload_dir(bucket_name, dirpath, region=None, key=None)`:
after defaulting the key to the original `dirpath`, the code evaluates
`dirpath[0]`, which raises an uncaught `IndexError` when `dirpath` is the
empty string (the handler only catches `ClientError`); otherwise it
resolves the root, walks it, and uploads sequentially, a `ClientError`
aborting the walk and becoming `False`. -/
def upload_dir (env : Env) (bucket_name dirpath : String)
    (region key : Option String) : Except Exn Bool × List RemoteCall :=
  if dirpath = "" then (.error .indexError, [])
  else
    let res := runCalls env (upload_dir_calls env bucket_name dirpath key)
    (.ok res.1, res.2)

/-- Embedding of `upload(bucket_name, path, region=None, key=None)`:
dispatches on the path type; anything that is neither a regular file nor a
directory is rejected locally with `False`, no remote call issued. -/
def upload (env : Env) (bucket_name path : String)
    (region key : Option String) : Except Exn Bool × List RemoteCall :=
  if env.fs.isfile path then upload_file env bucket_name path region key
  else if env.fs.isdir path then upload_dir env bucket_name path region key
  else (.ok false, [])

/-- Embedding of `set_bucket_web_config(bucket_name, region=None,
index_doc=None, error_doc=None, cors=True, public=True)`: optionally one
CORS call, then optionally a bucket-policy call followed by a website
configuration call whose documents default to `index.html` and
`error.html`; `ClientError` is caught and becomes `False`. -/
def set_bucket_web_config (env : Env) (bucket_name : String)
    (region : Option String) (index_doc error_doc : Option String)
    (cors public : Bool) : Except Exn Bool × List RemoteCall :=
  let corsCalls := if cors then [RemoteCall.putBucketCors bucket_name] else []
  let publicCalls :=
    if public then
      [RemoteCall.putBucketPolicy bucket_name,
       RemoteCall.putBucketWebsite bucket_name (index_doc.getD "index.html")
         (error_doc.getD "error.html")]
    else []
  let res := runCalls env (corsCalls ++ publicCalls)
  (.ok res.1, res.2)

/-- The destination key of an upload call, when the call is one. -/
def uploadKey : RemoteCall → Option String
  | .uploadFile _ _ k _ => some k
  | _ => none

/-- A concrete filesystem for the spec's end-to-end scenario: working
directory `/home/user`, a directory `./site` holding `index.html` and
`css/style.css`, and nothing else.  `walk` answers for the root the code
actually visits, `os.path.join("/home/user", "./site")`, which is the
unnormalized `/home/user/./site`. -/
def siteFS : FS where
  isfile := fun p =>
    p == "/home/user/./site/index.html" || p == "/home/user/./site/css/style.css"
  isdir := fun p =>
    p == "./site" || p == "/home/user/./site" || p == "/home/user/./site/css"
  getcwd := "/home/user"
  walk := fun p =>
    if p == "/home/user/./site" then
      [("/home/user/./site", ["index.html"]),
       ("/home/user/./site/css", ["style.css"])]
    else []

/-- A storage service on which every call succeeds. -/
def okS3 : S3 where
  fails := fun _ => false

/-- The end-to-end scenario environment: the `./site` tree and a service
that accepts everything. -/
def siteEnv : Env := ⟨siteFS, okS3⟩

/-- A storage service that rejects exactly the upload of the second file
of the scenario, to exercise the abort-on-error path of `upload_dir`. -/
def failS3 : S3 where
  fails := fun c =>
    c == RemoteCall.uploadFile "/home/user/./site/css/style.css" "b"
      "/css/style.css" (some "text/css")

/-- The scenario environment with the failing service. -/
def failEnv : Env := ⟨siteFS, failS3⟩

/-- Every call in the trace `runCalls` produces was among the planned
calls. -/
theorem runCalls_mem (env : Env) :
    ∀ (cs : List RemoteCall) (c : RemoteCall), c ∈ (runCalls env cs).2 → c ∈ cs
  | [], c, h => absurd h (by simp [runCalls])
  | d :: rest, c, h => by
    cases hf : env.s3.fails d with
    | true =>
      rw [runCalls, if_pos hf] at h
      simp at h
      simp [h]
    | false =>
      rw [runCalls, if_neg (by simp [hf])] at h
      simp at h
      rcases h with h | h
      · simp [h]
      · exact List.mem_cons_of_mem _ (runCalls_mem env rest c h)

/-- When the first failing call sits at index `j`, `runCalls` reports
failure and its trace is exactly the first `j + 1` planned calls: the
successful ones, then the failing one; nothing afterwards is issued. -/
theorem runCalls_first_fail (env : Env) :
    ∀ (cs : List RemoteCall) (j : Nat) (hj : j < cs.length),
      env.s3.fails (cs.get ⟨j, hj⟩) = true →
      (∀ (i : Nat) (hi : i < cs.length), i < j →
        env.s3.fails (cs.get ⟨i, hi⟩) = false) →
      runCalls env cs = (false, cs.take (j + 1))
  | [], j, hj => absurd hj (by simp)
  | c :: rest, 0, hj => fun hf hb => by
    have hf0 : env.s3.fails c = true := hf
    rw [runCalls, if_pos hf0]
    simp
  | c :: rest, j + 1, hj => fun hf hb => by
    have hc : env.s3.fails c = false := hb 0 (by simp) (Nat.succ_pos j)
    have hf2 : env.s3.fails (rest.get ⟨j, Nat.lt_of_succ_lt_succ hj⟩) = true := hf
    have hb2 : ∀ (i : Nat) (hi : i < rest.length), i < j →
        env.s3.fails (rest.get ⟨i, hi⟩) = false :=
      fun i hi hij =>
        hb (i + 1) (Nat.succ_lt_succ hi) (Nat.succ_lt_succ hij)
    have ih := runCalls_first_fail env rest j (Nat.lt_of_succ_lt_succ hj) hf2 hb2
    rw [runCalls, if_neg (by simp [hc]), ih]
    rfl

/-- `leadsWith p s` holds exactly when `s` is `p` followed by some tail. -/
theorem leadsWith_iff : ∀ (p s : List Char), leadsWith p s = true ↔ ∃ t, p ++ t = s
  | [], s => by simp [leadsWith]
  | a :: ps, [] => by simp [leadsWith]
  | a :: ps, c :: cs => by
    rw [leadsWith]
    simp only [Bool.and_eq_true, decide_eq_true_eq, leadsWith_iff ps cs,
      List.cons_append, List.cons.injEq]
    constructor
    · rintro ⟨h1, t, h2⟩
      exact ⟨t, h1, h2⟩
    · rintro ⟨t, h1, h2⟩
      exact ⟨h1, t, h2⟩

/-- A list begins with itself. -/
theorem leadsWith_self_append (p t : List Char) : leadsWith p (p ++ t) = true := by
  rw [leadsWith_iff]
  exact ⟨t, rfl⟩

/-- Beginning-with is transitive. -/
theorem leadsWith_trans (a b c : List Char) (h1 : leadsWith a b = true)
    (h2 : leadsWith b c = true) : leadsWith a c = true := by
  rw [leadsWith_iff] at h1 h2 ⊢
  obtain ⟨t1, h1⟩ := h1
  obtain ⟨t2, h2⟩ := h2
  exact ⟨t1 ++ t2, by rw [← h2, ← h1, List.append_assoc]⟩

/-- Replacing the first occurrence of a pattern that starts the string
replaces exactly that leading copy. -/
theorem replaceFirstChars_leads (s pat rep : List Char)
    (h : leadsWith pat s = true) :
    replaceFirstChars s pat rep = rep ++ s.drop pat.length := by
  cases s with
  | nil =>
    have hp : pat = [] := by
      cases pat with
      | nil => rfl
      | cons a ps => simp [leadsWith] at h
    subst hp
    simp [replaceFirstChars]
  | cons c cs =>
    rw [replaceFirstChars, if_pos h]

/-- String append acts as list append on the character data. -/
theorem str_data_append (a b : String) : (a ++ b).data = a.data ++ b.data := by
  cases a
  cases b
  rfl

/-- Appending a character list to a string, as strings. -/
theorem str_append_mk (s : String) (t : List Char) :
    s ++ String.mk t = String.mk (s.data ++ t) := by
  cases s
  rfl

/-- A non-empty string has non-empty character data. -/
theorem str_data_ne_nil (s : String) (h : s ≠ "") : s.data ≠ [] := by
  intro hd
  apply h
  cases s with
  | mk l =>
    simp at hd
    rw [hd]

/-- Joining a relative, non-empty component onto a base extends the
base's character data by a non-empty tail: `os.path.join` never drops the
base in that case. -/
theorem os_path_join_data (a b : String) (hb : startsWithSlash b = false)
    (hb2 : b ≠ "") :
    ∃ t, t ≠ [] ∧ (os_path_join a b).data = a.data ++ t := by
  rw [os_path_join, if_neg (by simp [hb])]
  by_cases h : (a = "" || endsWithSlash a) = true
  · rw [if_pos (by simpa using h)]
    exact ⟨b.data, str_data_ne_nil b hb2, str_data_append a b⟩
  · rw [if_neg (by simpa using h)]
    refine ⟨'/' :: b.data, by simp, ?_⟩
    rw [str_data_append, str_data_append]
    simp

/-- C4: `set_bucket_web_config` with `cors=False` and `public=False`
issues no bucket-configuration call at all and returns `True`. -/
theorem set_bucket_web_config_noop (env : Env) (b : String)
    (r i e : Option String) :
    set_bucket_web_config env b r i e false false = (.ok true, []) := rfl

/-- C5: `create_bucket` issues its creation request with a location
constraint exactly when a region argument is given: with `region=None`
the request carries no `CreateBucketConfiguration`, and with a region it
carries that region. -/
theorem create_bucket_location_constraint (env : Env) (b reg : String) :
    (create_bucket env b none).2 = [RemoteCall.createBucket b none] ∧
    (create_bucket env b (some reg)).2 = [RemoteCall.createBucket b (some reg)] := by
  constructor
  · cases h : env.s3.fails (RemoteCall.createBucket b none) <;>
      simp [create_bucket, runCalls, h]
  · cases h : env.s3.fails (RemoteCall.createBucket b (some reg)) <;>
      simp [create_bucket, runCalls, h]

/-- C1 counterexample: in the end-to-end scenario (bucket `b`, region
unset, directory `./site` with `index.html` and `css/style.css`, key the
empty string), the destination keys the code computes are not
`index.html` and `css/style.css`: the resolved root
`/home/user/./site` has no trailing slash, so the replacement leaves a
leading `/` on every key. -/
theorem upload_site_keys_counterexample :
    ((upload siteEnv "b" "./site" none (some "")).2.map uploadKey
       = [some "/index.html", some "/css/style.css"]) ∧
    ((upload siteEnv "b" "./site" none (some "")).2.map uploadKey
       ≠ [some "index.html", some "css/style.css"]) := by
  decide

/-- C1 (amended): in the end-to-end scenario, `upload` dispatches to the
directory upload and issues exactly two upload calls, in walk order, with
destination keys `/index.html` and `/css/style.css`: each key is the
file's path with the first occurrence of the resolved absolute root
replaced by the key prefix, and since the root carries no trailing slash
the separator survives into the key. -/
theorem upload_site_end_to_end :
    upload siteEnv "b" "./site" none (some "") =
      (.ok true,
       [RemoteCall.uploadFile "/home/user/./site/index.html" "b"
          "/index.html" (some "text/html"),
        RemoteCall.uploadFile "/home/user/./site/css/style.css" "b"
          "/css/style.css" (some "text/css")]) := by
  decide

/-- C2: on a path that is neither a regular file nor a directory,
`upload` returns `False` and issues no remote call at all. -/
theorem upload_rejects_special_path (env : Env) (b p : String)
    (r k : Option String) (h1 : env.fs.isfile p = false)
    (h2 : env.fs.isdir p = false) :
    upload env b p r k = (.ok false, []) := by
  rw [upload, if_neg (by simp [h1]), if_neg (by simp [h2])]

/-- C2 witness: the scenario filesystem has no entry `bogus`, and
uploading it fails locally with an empty trace. -/
theorem upload_rejects_special_path_witness :
    upload siteEnv "b" "bogus" none none = (.ok false, []) :=
  upload_rejects_special_path siteEnv "b" "bogus" none none (by decide)
    (by decide)

/-- C6: `upload_file` always issues exactly one upload call whose
`ContentType` extra argument is the MIME type guessed from the file
path's extension; a recognized extension such as `.html` yields
`text/html`, and an unrecognized extension yields no content type. -/
theorem upload_file_attaches_guessed_content_type (env : Env)
    (b fp : String) (r k : Option String) :
    (upload_file env b fp r k).2
      = [RemoteCall.uploadFile fp b (k.getD fp) (guess_type fp)] ∧
    guess_type "index.html" = some "text/html" ∧
    guess_type "archive.xyz" = none := by
  refine ⟨?_, by decide, by decide⟩
  cases k with
  | none =>
    cases h : env.s3.fails (RemoteCall.uploadFile fp b fp (guess_type fp)) <;>
      simp [upload_file, runCalls, h]
  | some kk =>
    cases h : env.s3.fails (RemoteCall.uploadFile fp b kk (guess_type fp)) <;>
      simp [upload_file, runCalls, h]

/-- C7: `upload_file` uploads under the supplied key when one is given,
and under the literal local filepath string when the key argument is
`None`. -/
theorem upload_file_key_choice (env : Env) (b fp kk : String)
    (r : Option String) :
    (upload_file env b fp r none).2
      = [RemoteCall.uploadFile fp b fp (guess_type fp)] ∧
    (upload_file env b fp r (some kk)).2
      = [RemoteCall.uploadFile fp b kk (guess_type fp)] := by
  constructor
  · cases h : env.s3.fails (RemoteCall.uploadFile fp b fp (guess_type fp)) <;>
      simp [upload_file, runCalls, h]
  · cases h : env.s3.fails (RemoteCall.uploadFile fp b kk (guess_type fp)) <;>
      simp [upload_file, runCalls, h]

/-- C3 counterexample: the universal "no exception propagates past the
function boundary" fails: `upload_dir` called with the empty string as
`dirpath` propagates an `IndexError` (from `dirpath[0]`) instead of
returning a boolean. -/
theorem upload_dir_empty_raises :
    (upload_dir siteEnv "b" "" none none).1 = .error .indexError ∧
    (upload_dir siteEnv "b" "" none none).1 ≠ .ok false ∧
    (upload_dir siteEnv "b" "" none none).1 ≠ .ok true := by
  decide

/-- C3 (amended): no provider error ever escapes: every `ClientError` is
caught and turned into a `False` return.  `create_bucket`,
`upload_file` and `set_bucket_web_config` return a boolean on every
input; `upload_dir` returns a boolean for every non-empty `dirpath`, and
`upload` returns a boolean whenever the filesystem, like every real one,
does not report the empty string as a directory — the one exception that
does escape is the `IndexError` of `upload_dir` on an empty `dirpath`,
which is not a provider error. -/
theorem client_errors_become_false (env : Env) (b p fp d : String)
    (r k i e : Option String) (c pub : Bool)
    (hd : d ≠ "") (hroot : env.fs.isdir "" = false) :
    (∃ v, (create_bucket env b r).1 = .ok v) ∧
    (∃ v, (upload_file env b fp r k).1 = .ok v) ∧
    (∃ v, (set_bucket_web_config env b r i e c pub).1 = .ok v) ∧
    (∃ v, (upload_dir env b d r k).1 = .ok v) ∧
    (∃ v, (upload env b p r k).1 = .ok v) ∧
    (∀ d2 k2, (upload_dir env b d2 r k2).1 ≠ .error .clientError) := by
  refine ⟨⟨_, rfl⟩, ⟨_, rfl⟩, ⟨_, rfl⟩, ?_, ?_, ?_⟩
  · rw [upload_dir, if_neg hd]
    exact ⟨_, rfl⟩
  · by_cases hf : env.fs.isfile p = true
    · rw [upload, if_pos hf]
      exact ⟨_, rfl⟩
    · by_cases hdp : env.fs.isdir p = true
      · have hpne : p ≠ "" := by
          intro hp
          rw [hp, hroot] at hdp
          exact Bool.false_ne_true hdp
        rw [upload, if_neg hf, if_pos hdp, upload_dir, if_neg hpne]
        exact ⟨_, rfl⟩
      · rw [upload, if_neg hf, if_neg hdp]
        exact ⟨false, rfl⟩
  · intro d2 k2
    by_cases h2 : d2 = ""
    · rw [upload_dir, if_pos h2]
      intro hh
      exact Exn.noConfusion (Except.error.inj hh)
    · rw [upload_dir, if_neg h2]
      intro hh
      exact Except.noConfusion hh

/-- C3 witness: the amended guarantee instantiated on the scenario
environment: every operation returns a boolean there. -/
theorem client_errors_become_false_witness :
    (∃ v, (create_bucket siteEnv "b" none).1 = .ok v) ∧
    (∃ v, (upload_file siteEnv "b" "f.html" none none).1 = .ok v) ∧
    (∃ v, (set_bucket_web_config siteEnv "b" none none none true true).1
      = .ok v) ∧
    (∃ v, (upload_dir siteEnv "b" "x" none none).1 = .ok v) ∧
    (∃ v, (upload siteEnv "b" "bogus2" none none).1 = .ok v) ∧
    (∀ d2 k2, (upload_dir siteEnv "b" d2 none k2).1 ≠ .error .clientError) :=
  client_errors_become_false siteEnv "b" "bogus2" "f.html" "x" none none none
    none true true (by decide) (by decide)

/-- C8: `upload_dir` issues its uploads strictly sequentially in walk
order; when the provider rejects the upload at position `j` (all earlier
ones succeeding), the function returns `False` and the issued calls are
exactly the first `j + 1` planned ones — nothing after the failing file
is uploaded, and nothing is rolled back: no deletion call exists in the
call alphabet, so the earlier uploads remain. -/
theorem upload_dir_aborts_on_first_failure (env : Env) (b d : String)
    (r k : Option String) (hne : d ≠ "") (j : Nat)
    (hj : j < (upload_dir_calls env b d k).length)
    (hfail : env.s3.fails ((upload_dir_calls env b d k).get ⟨j, hj⟩) = true)
    (hbefore : ∀ (i : Nat) (hi : i < (upload_dir_calls env b d k).length),
      i < j → env.s3.fails ((upload_dir_calls env b d k).get ⟨i, hi⟩) = false) :
    upload_dir env b d r k
      = (.ok false, (upload_dir_calls env b d k).take (j + 1)) := by
  rw [upload_dir, if_neg hne,
    runCalls_first_fail env (upload_dir_calls env b d k) j hj hfail hbefore]

/-- C8 witness: on the scenario tree with a service that rejects the
second file, `upload_dir` returns `False` and issues exactly the first
two planned calls, the failing one last. -/
theorem upload_dir_aborts_on_first_failure_witness :
    upload_dir failEnv "b" "./site" none (some "")
      = (.ok false, (upload_dir_calls failEnv "b" "./site" (some "")).take 2) :=
  upload_dir_aborts_on_first_failure failEnv "b" "./site" none (some "")
    (by decide) 1 (by decide) (by decide) (by decide)

/-- C9: `upload_dir` on the empty string as `dirpath` does not return a
boolean: the `dirpath[0]` access raises an uncaught `IndexError` before
any remote call is issued (the trace is empty); for every non-empty
`dirpath` the function does return a boolean. -/
theorem upload_dir_empty_dirpath_index_error (env : Env) (b : String)
    (r k : Option String) :
    upload_dir env b "" r k = (.error .indexError, []) ∧
    ∀ d, d ≠ "" → ∃ v trace, upload_dir env b d r k = (Except.ok v, trace) := by
  constructor
  · rw [upload_dir, if_pos rfl]
  · intro d hd
    rw [upload_dir, if_neg hd]
    exact ⟨_, _, rfl⟩

/-- C9 witness: on the scenario environment, the empty path raises and
the non-empty path `x` returns a boolean. -/
theorem upload_dir_empty_dirpath_index_error_witness :
    upload_dir siteEnv "b" "" none none = (.error .indexError, []) ∧
    ∃ v trace, upload_dir siteEnv "b" "x" none none = (Except.ok v, trace) :=
  ⟨(upload_dir_empty_dirpath_index_error siteEnv "b" none none).1,
   (upload_dir_empty_dirpath_index_error siteEnv "b" none none).2 "x"
     (by decide)⟩

/-- C10: when `upload_dir` is called with `key=None`, the key prefix
defaults to the originally supplied `dirpath` string — captured before
the relative-to-absolute resolution — so with a relative `dirpath` every
issued upload call's destination key is that relative string followed by
some tail, never the resolved absolute path.  The walk hypotheses state
what `os.walk` guarantees on a real filesystem: every visited root
extends the walked root, and file names are non-empty and carry no
leading separator. -/
theorem upload_dir_default_key_keeps_relative_dirpath (env : Env)
    (b dirpath : String) (r : Option String)
    (hne : dirpath ≠ "")
    (hrel : startsWithSlash dirpath = false)
    (hwalk : ∀ rf ∈ env.fs.walk (resolved_dirpath env dirpath),
      leadsWith (resolved_dirpath env dirpath).data rf.1.data = true)
    (hnames : ∀ rf ∈ env.fs.walk (resolved_dirpath env dirpath),
      ∀ n ∈ rf.2, startsWithSlash n = false ∧ n ≠ "") :
    ∀ c ∈ (upload_dir env b dirpath r none).2,
      ∃ p ct tail, c = RemoteCall.uploadFile p b (dirpath ++ String.mk tail) ct := by
  intro c hc
  rw [upload_dir, if_neg hne] at hc
  have hc2 : c ∈ upload_dir_calls env b dirpath none := runCalls_mem env _ c hc
  rw [upload_dir_calls] at hc2
  simp only [Option.getD, List.mem_flatMap, List.mem_map] at hc2
  obtain ⟨rf, hrf, n, hn, heq⟩ := hc2
  obtain ⟨hslash, hnn⟩ := hnames rf hrf n hn
  obtain ⟨t, htne, hjoin⟩ := os_path_join_data rf.1 n hslash hnn
  have lead1 : leadsWith rf.1.data (os_path_join rf.1 n).data = true := by
    rw [hjoin]
    exact leadsWith_self_append _ _
  have leadA : leadsWith (resolved_dirpath env dirpath).data
      (os_path_join rf.1 n).data = true :=
    leadsWith_trans _ _ _ (hwalk rf hrf) lead1
  have hkey : str_replace_first (os_path_join rf.1 n)
      (resolved_dirpath env dirpath) dirpath
      = dirpath ++ String.mk ((os_path_join rf.1 n).data.drop
          (resolved_dirpath env dirpath).data.length) := by
    rw [str_replace_first, replaceFirstChars_leads _ _ _ leadA, str_append_mk]
  rw [← heq, hkey]
  exact ⟨os_path_join rf.1 n, guess_type (os_path_join rf.1 n), _, rfl⟩

/-- C10 witness: on the scenario tree walked with `key=None`, the first
issued call's key is `./site/index.html`, the relative `./site` followed
by a tail. -/
theorem upload_dir_default_key_keeps_relative_dirpath_witness :
    ∃ p ct tail,
      RemoteCall.uploadFile "/home/user/./site/index.html" "b"
          "./site/index.html" (some "text/html")
        = RemoteCall.uploadFile p "b" ("./site" ++ String.mk tail) ct := by
  have htr : (upload_dir siteEnv "b" "./site" none none).2
      = [RemoteCall.uploadFile "/home/user/./site/index.html" "b"
           "./site/index.html" (some "text/html"),
         RemoteCall.uploadFile "/home/user/./site/css/style.css" "b"
           "./site/css/style.css" (some "text/css")] := by decide
  apply upload_dir_default_key_keeps_relative_dirpath siteEnv "b" "./site"
    none (by decide) (by decide) (by decide) (by decide)
  rw [htr]
  exact List.mem_cons_self _ _

end S3Deploy
